import Mathlib

/-!
Formal model of `voice-bridge/bridge.py`: the audio resampler, the
per-device pipeline handling, and the relay of messages between ESPHome
voice devices and the minhome server.  Pure Python functions are embedded
as pure Lean functions; effectful code is embedded as functions returning
explicit traces of the device events and server messages it emits.
Audio byte strings are modelled as lists of int16 samples (two bytes per
sample); time-based deadlines are modelled as a budget of queue waits.
-/

namespace VoiceBridge

/-- Truncation toward zero of a rational, mirroring numpy's
`astype(np.int16)` applied to an already-clipped float (C float→int cast
truncates toward zero). -/
def ratTrunc (x : ℚ) : Int := if 0 ≤ x then ⌊x⌋ else ⌈x⌉

/-- Python `clip(-32768, 32767)` applied to one value, as in
`resampled.clip(-32768, 32767)`. -/
def clip16 (x : ℚ) : ℚ := max (-32768) (min 32767 x)

/-- Numpy `np.interp` evaluated at one query point `x` against sample positions
`0, 1, …, n-1` (`x_in = np.arange(n_in)`) with values `samples`.  For
`x` at or beyond the last position the last sample is returned, which is
the only out-of-segment case reachable from `resample_16_to_24` (its
queries satisfy `0 ≤ x ≤ n_in - 1`). -/
def interpAt (samples : List Int) (x : ℚ) : ℚ :=
  let k : Nat := (⌊x⌋).toNat
  if k + 1 < samples.length then
    ((samples.getD k 0 : Int) : ℚ) +
      (x - (k : ℚ)) * (((samples.getD (k + 1) 0 : Int) : ℚ) - ((samples.getD k 0 : Int) : ℚ))
  else ((samples.getD k 0 : Int) : ℚ)

/-- Function `resample_16_to_24` from bridge.py: `n_out = int(n_in * 24000 / 16000)`
(float division then truncation = `⌊3·n_in/2⌋`), query points
`np.linspace(0, n_in - 1, n_out)` i.e. `i · (n_in-1)/(n_out-1)`
(for `n_out = 1` linspace yields the single point `0`, which the Lean
division-by-zero convention also yields), linear interpolation, clip to
the int16 range, truncate to int16.  The `n_in == 0` early return and the
`List.range 0` path coincide on `[]`. -/
def resample_16_to_24 (samples : List Int) : List Int :=
  let n_in := samples.length
  let n_out := n_in * 24000 / 16000
  (List.range n_out).map fun (i : Nat) =>
    ratTrunc (clip16 (interpAt samples
      ((i : ℚ) * ((n_in : ℚ) - 1) / ((n_out : ℚ) - 1))))

/-- The ESPHome voice-assistant pipeline event kinds used by bridge.py. -/
inductive EventType
  | RUN_START
  | STT_START
  | STT_VAD_START
  | STT_VAD_END
  | TTS_START
  | TTS_END
  | RUN_END
  | ERROR
deriving DecidableEq, Repr

/-- One `cli.send_voice_assistant_event(etype, payload)` call. -/
structure DeviceEvent where
  etype : EventType
  payload : List (String × String)
deriving DecidableEq, Repr

/-- Cached `_device_info` for a device (name, model, esphome_version). -/
structure DeviceInfo where
  name : String
  model : String
  version : String
deriving DecidableEq, Repr

/-- JSON messages the bridge can send to the minhome server.  The
constructor `voice_end` exists only to make the spec's claimed summary
message expressible: bridge.py itself never constructs such a message. -/
inductive ServerMsg
  | voice_start (device_id conversation_id wake_word : String)
  | devices_list (devices : List (String × DeviceInfo))
  | announce_done (device_id announce_id : String) (success : Bool)
  | device_connected (device_id : String) (info : DeviceInfo)
  | device_disconnected (device_id : String)
  | voice_end (device_id : String) (audio_bytes : Nat) (stop_reason : String)
deriving DecidableEq, Repr

/-- A parsed inbound server→bridge JSON message; absent keys are `none`
(`msg.get(...)` defaults are applied at the use sites, as in the code). -/
structure InMsg where
  mtype : String
  device_id : Option String := none
  audio_path : Option String := none
  code : Option String := none
  message : Option String := none
  conversation_id : Option String := none
  announce_id : Option String := none
deriving DecidableEq, Repr

/-- The effects of one `DeviceHandler.handle_server_message(msg)` call:
the device events sent, the announcement tasks spawned
(`(audio_url, announce_id)` pairs), and whether
`manager.clear_active_streamer(self.device_id)` was called. -/
structure HandleResult where
  deviceEvents : List DeviceEvent
  announceTasks : List (String × String)
  clearsStreamer : Bool
deriving DecidableEq, Repr

/-- Method `DeviceHandler.handle_server_message` from bridge.py, as a trace of
its effects.  `baseUrl` is `MINHOME_AUDIO_BASE_URL`. -/
def handle_server_message (baseUrl : String) (msg : InMsg) : HandleResult :=
  if msg.mtype = "speech_stopped" then
    ⟨[⟨.STT_VAD_END, []⟩], [], false⟩
  else if msg.mtype = "tts_start" then
    let url := baseUrl ++ msg.audio_path.getD ""
    ⟨[⟨.TTS_START, [("url", url)]⟩, ⟨.TTS_END, [("url", url)]⟩], [], false⟩
  else if msg.mtype = "voice_error" then
    ⟨[⟨.ERROR, [("code", msg.code.getD "server-error"),
                ("message", msg.message.getD "An error occurred")]⟩], [], false⟩
  else if msg.mtype = "voice_done" then
    ⟨[⟨.RUN_END, []⟩], [], true⟩
  else if msg.mtype = "announce" then
    ⟨[], [(baseUrl ++ msg.audio_path.getD "", msg.announce_id.getD "")], false⟩
  else
    ⟨[], [], false⟩

/-- The per-session state relevant to pipeline starts: the audio queue
(`None` entries are the stop sentinel enqueued by `_handle_pipeline_stop`)
and the number of `_forward_audio` tasks that have been created and not
yet finished. -/
structure SessionState where
  audioQueue : List (Option (List Int))
  forwardTasks : Nat
deriving DecidableEq, Repr

/-- The `BridgeManager` registry state touched by the claims: the device
registry `_devices` (device id paired with its cached `_device_info`,
which is `none` until the first successful ESPHome connect) and
`_active_streamer`. -/
structure ManagerState where
  devices : List (String × Option DeviceInfo)
  activeStreamer : Option String
deriving DecidableEq, Repr

/-- Method `BridgeManager.set_active_streamer`. -/
def set_active_streamer (m : ManagerState) (device_id : String) : ManagerState :=
  { m with activeStreamer := some device_id }

/-- Method `BridgeManager.clear_active_streamer`: clears the marker only when it
currently equals `device_id`. -/
def clear_active_streamer (m : ManagerState) (device_id : String) : ManagerState :=
  if m.activeStreamer = some device_id then { m with activeStreamer := none } else m

/-- The result of one `DeviceHandler._handle_pipeline_start` call. -/
structure StartResult where
  session : SessionState
  manager : ManagerState
  serverJson : List ServerMsg
  deviceEvents : List DeviceEvent
  returnPort : Option Nat
deriving DecidableEq, Repr

/-- Method `DeviceHandler._handle_pipeline_start` from bridge.py: drain the audio
queue with `get_nowait` until empty, send `voice_start`, register the
active streamer, emit `RUN_START`/`STT_START`/`STT_VAD_START`, create a
new `_forward_audio` task (unconditionally), and return port 0. -/
def handle_pipeline_start (deviceId conversationId : String)
    (wakeWord : Option String) (s : SessionState) (m : ManagerState) : StartResult :=
  { session := { audioQueue := [], forwardTasks := s.forwardTasks + 1 }
  , manager := set_active_streamer m deviceId
  , serverJson := [.voice_start deviceId conversationId (wakeWord.getD "")]
  , deviceEvents := [⟨.RUN_START, []⟩, ⟨.STT_START, []⟩, ⟨.STT_VAD_START, []⟩]
  , returnPort := some 0 }

/-- An item dequeued by `_forward_audio`: an audio chunk, or the `None`
stop sentinel enqueued by `_handle_pipeline_stop`. -/
inductive QueueItem
  | chunk (data : List Int)
  | stopSentinel
deriving DecidableEq, Repr

/-- Why a `_forward_audio` run ended. -/
inductive StopCause
  | deviceStopped
  | maxDuration
  | cancelled
deriving DecidableEq, Repr

/-- The `stop_reason` string logged by `_forward_audio`
(`MAX_PIPELINE_DURATION` is formatted with no decimals). -/
def stopReasonText (maxDur : Nat) : StopCause → String
  | .deviceStopped => "device stopped"
  | .maxDuration => "max duration (" ++ toString maxDur ++ "s)"
  | .cancelled => "cancelled"

/-- The `_forward_audio` loop body: `budget` is the number of queue waits
the `MAX_PIPELINE_DURATION` deadline still allows (the deadline is checked
before every wait, and an exhausted deadline or an empty queue that never
delivers before the deadline stops the run with the max-duration reason);
a `None` sentinel stops it with the device-stopped reason; a chunk is
counted (`total_bytes += len(chunk)`, two bytes per sample), resampled and
sent as a binary frame.  Returns the binary frames sent, the byte total,
and the stop cause. -/
def forwardLoop : Nat → List QueueItem → List (List Int) × Nat × StopCause
  | 0, _ => ([], 0, .maxDuration)
  | _ + 1, [] => ([], 0, .maxDuration)
  | _ + 1, .stopSentinel :: _ => ([], 0, .deviceStopped)
  | b + 1, .chunk c :: rest =>
    let r := forwardLoop b rest
    (resample_16_to_24 c :: r.1, 2 * c.length + r.2.1, r.2.2)

/-- The trace of one whole `_forward_audio` run: binary frames sent to the
server, device events emitted (none anywhere in the function), server JSON
sent (none anywhere in the function), and the byte total and stop reason
that the `finally` block logs. -/
structure ForwardResult where
  binarySends : List (List Int)
  deviceEvents : List DeviceEvent
  serverJson : List ServerMsg
  logBytes : Nat
  logReason : String
deriving DecidableEq, Repr

/-- Method `DeviceHandler._forward_audio` for a run that ends by the device stop
sentinel or by the hard duration deadline: it forwards resampled chunks as
binary frames until the stop condition, then only logs — the body and the
`finally` block contain no `send_voice_assistant_event` call and no
`ws_send_json` call. -/
def forward_audio (maxDur budget : Nat) (q : List QueueItem) : ForwardResult :=
  let r := forwardLoop budget q
  ⟨r.1, [], [], r.2.1, stopReasonText maxDur r.2.2⟩

/-- Method `DeviceHandler._forward_audio` for a run ended by task cancellation
(`asyncio.CancelledError`) after having forwarded `processed` chunks: the
except arm sets the reason to "cancelled" and the shared `finally` block
only logs. -/
def forward_audio_cancelled (maxDur : Nat) (processed : List (List Int)) : ForwardResult :=
  ⟨processed.map resample_16_to_24, [], [],
    (processed.map fun c => 2 * c.length).sum, stopReasonText maxDur .cancelled⟩

/-- An observable action on the minhome WebSocket. -/
inductive WsAction
  | connectAttempt
  | jsonSent (m : ServerMsg)
  | binarySent (data : List Int)
deriving DecidableEq, Repr

/-- The `devices` list built by `BridgeManager._send_devices_list`: one
entry per registry session whose `_device_info` has been cached; sessions
with `_device_info is None` are skipped. -/
def devices_list_entries (reg : List (String × Option DeviceInfo)) :
    List (String × DeviceInfo) :=
  reg.filterMap fun p => p.2.map fun i => (p.1, i)

/-- Method `BridgeManager._send_devices_list`: `if not devices: return` — nothing
is sent when no session has cached info; otherwise one `devices_list`
message is sent. -/
def send_devices_list (reg : List (String × Option DeviceInfo)) : List WsAction :=
  let entries := devices_list_entries reg
  if entries.isEmpty then [] else [.jsonSent (.devices_list entries)]

/-- Method `BridgeManager._ensure_ws`: if a connection is already held, return it
with no action; otherwise attempt one connect, and on success start the
reader (not traced here) and push `_send_devices_list`.  Returns whether a
connection is held afterwards, with the trace of actions. -/
def ensure_ws (connected connectOk : Bool)
    (reg : List (String × Option DeviceInfo)) : Bool × List WsAction :=
  if connected then (true, [])
  else if connectOk then (true, .connectAttempt :: send_devices_list reg)
  else (false, [.connectAttempt])

/-- Method `BridgeManager.ws_send_json`: connect-if-needed first (via
`_ensure_ws`), drop the message when no link could be established, and on
a send exception mark the link down. -/
def ws_send_json (connected connectOk sendOk : Bool)
    (reg : List (String × Option DeviceInfo)) (msg : ServerMsg) : Bool × List WsAction :=
  let e := ensure_ws connected connectOk reg
  if e.1 then
    if sendOk then (true, e.2 ++ [.jsonSent msg]) else (false, e.2)
  else (false, e.2)

/-- Method `BridgeManager.ws_send_binary`: reads `self._ws` directly, returns at
once when it is `None` (the frame is dropped, nothing is stored), and
never calls `_ensure_ws`; a send exception marks the link down. -/
def ws_send_binary (connected sendOk : Bool) (data : List Int) : Bool × List WsAction :=
  if connected then
    if sendOk then (true, [.binarySent data]) else (false, [])
  else (false, [])

/-- The registry keys, `self._devices` dict keys. -/
def registryIds (m : ManagerState) : List String := m.devices.map Prod.fst

/-- One text-frame dispatch step of `BridgeManager._ws_reader` after JSON
parsing, as a total function (`.ok` everywhere mirrors that every branch
is guarded: `announce_all` fans out over `_devices.values()`, a known
`device_id` is dispatched to its handler — whose only registry effect is
`clear_active_streamer` on `voice_done` — and an unknown or missing
`device_id` is only logged).  Returns the new manager state and the
`(device_id, message)` deliveries made to session handlers. -/
def route_message (baseUrl : String) (m : ManagerState) (msg : InMsg) :
    Except String (ManagerState × List (String × InMsg)) :=
  if msg.mtype = "announce_all" then
    .ok (m, m.devices.map fun p =>
      (p.1, { msg with mtype := "announce", device_id := some p.1 }))
  else
    match msg.device_id with
    | some d =>
      if d ∈ registryIds m then
        let r := handle_server_message baseUrl msg
        .ok ((if r.clearsStreamer then clear_active_streamer m d else m), [(d, msg)])
      else
        .ok (m, [])
    | none => .ok (m, [])

/-- Method `DeviceHandler._play_announcement`: the device call always carries
`timeout=300`; `success` starts `False`, is set from the device result
when the call returns, and stays `False` when it raises; `announce_done`
is sent in every case.  `outcome` is the device call's result: `.ok b`
when it returned with `result.success = b`, `.error e` when it raised.
Returns the timeout passed to the device call and the message sent. -/
def play_announcement (deviceId announceId : String)
    (outcome : Except String Bool) : Nat × ServerMsg :=
  let success := match outcome with
    | .ok b => b
    | .error _ => false
  (300, .announce_done deviceId announceId success)

/-- Modelled from the spec: `VoiceSegmenter` parameters (§4.2); the
component is absent from the repository source (bridge.py delegates
end-of-speech detection to the server).  All `*_seconds` parameters are
already converted to frame countdowns at 10 ms per frame. -/
structure SegParams where
  speechFrames : Nat
  silenceFrames : Nat
  commandFrames : Nat
  timeoutFrames : Nat
  resetFrames : Nat
  beforeThreshold : ℚ
  inThreshold : ℚ
deriving DecidableEq, Repr

/-- Modelled from the spec: the two `VoiceSegmenter` states. -/
inductive SegPhase
  | waiting
  | inCommand
deriving DecidableEq, Repr

/-- Modelled from the spec: the `VoiceSegmenter` counters. -/
structure SegState where
  phase : SegPhase
  speechLeft : Nat
  silenceLeft : Nat
  commandLeft : Nat
  timeoutLeft : Nat
  resetLeft : Nat
  timedOut : Bool
deriving DecidableEq, Repr

/-- Modelled from the spec: the freshly-reset segmenter state (`reset()`
reinitializes all counters). -/
def segInit (P : SegParams) : SegState :=
  ⟨.waiting, P.speechFrames, P.silenceFrames, P.commandFrames,
    P.timeoutFrames, P.resetFrames, false⟩

/-- Modelled from the spec (§4.2): process one 10 ms frame with speech
probability `p`.  The process-wide timeout counter decrements every frame
regardless of state and forces termination, flagged `timedOut`, when it
reaches zero.  In `WAITING`, frames above `beforeThreshold` decrement the
speech counter (entering `IN_COMMAND`, reinitializing the silence and
command counters, when it reaches zero) and non-speech frames decrement
the reset counter, restoring the speech counter when it reaches zero.  In
`IN_COMMAND`, frames at or under `inThreshold` decrement the silence and
command counters, ending the command (returning `false` with
`timedOut = false`) when both reach zero simultaneously; speech frames
decrement the command and reset counters, restoring the silence counter
when the reset counter reaches zero.  Returns the new state and the
keep-streaming boolean (`true` = keep streaming). -/
def segStep (P : SegParams) (s : SegState) (p : ℚ) : SegState × Bool :=
  let t := s.timeoutLeft - 1
  if t = 0 then ({ s with timeoutLeft := 0, timedOut := true }, false)
  else
    match s.phase with
    | .waiting =>
      if P.beforeThreshold < p then
        let sp := s.speechLeft - 1
        if sp = 0 then
          ({ s with phase := .inCommand, speechLeft := 0,
                    silenceLeft := P.silenceFrames, commandLeft := P.commandFrames,
                    resetLeft := P.resetFrames, timeoutLeft := t }, true)
        else
          ({ s with speechLeft := sp, resetLeft := P.resetFrames, timeoutLeft := t }, true)
      else
        let r := s.resetLeft - 1
        if r = 0 then
          ({ s with speechLeft := P.speechFrames, resetLeft := P.resetFrames,
                    timeoutLeft := t }, true)
        else
          ({ s with resetLeft := r, timeoutLeft := t }, true)
    | .inCommand =>
      if p ≤ P.inThreshold then
        let si := s.silenceLeft - 1
        let c := s.commandLeft - 1
        if si = 0 ∧ c = 0 then
          ({ s with silenceLeft := 0, commandLeft := 0, timeoutLeft := t }, false)
        else
          ({ s with silenceLeft := si, commandLeft := c, resetLeft := P.resetFrames,
                    timeoutLeft := t }, true)
      else
        let c := s.commandLeft - 1
        let r := s.resetLeft - 1
        if r = 0 then
          ({ s with silenceLeft := P.silenceFrames, resetLeft := P.resetFrames,
                    commandLeft := c, timeoutLeft := t }, true)
        else
          ({ s with commandLeft := c, resetLeft := r, timeoutLeft := t }, true)

/-- Modelled from the spec: feed a probability sequence frame by frame,
stopping — as the caller contract prescribes (`false` means "stop") — at
the first `false` return.  Yields `some flag` when the segmenter stopped
the stream (`flag` is its `timedOut` flag at that moment, so the stop
cause is observable) and `none` when the whole sequence was consumed with
the segmenter still streaming. -/
def segRun (P : SegParams) (s : SegState) : List ℚ → Option Bool
  | [] => none
  | p :: ps =>
    let r := segStep P s p
    if r.2 then segRun P r.1 ps else some r.1.timedOut

/-- Iterate `segStep` on all-zero-probability frames, to observe the
state trajectory. -/
def segIterZero (P : SegParams) (s : SegState) : Nat → SegState
  | 0 => s
  | k + 1 => (segStep P (segIterZero P s k) 0).1

/-! ## Helper lemmas -/

theorem n_out_eq (n : Nat) : n * 24000 / 16000 = 3 * n / 2 := by omega

theorem le_clip16 (x : ℚ) : -32768 ≤ clip16 x := le_max_left _ _

theorem clip16_le (x : ℚ) : clip16 x ≤ 32767 :=
  max_le (by norm_num) (min_le_left _ _)

theorem ratTrunc_bounds (x : ℚ) (h1 : -32768 ≤ x) (h2 : x ≤ 32767) :
    -32768 ≤ ratTrunc x ∧ ratTrunc x ≤ 32767 := by
  unfold ratTrunc
  split
  · constructor
    · exact Int.le_floor.mpr (by exact_mod_cast h1)
    · have h := (Int.floor_le x).trans h2
      exact_mod_cast h
  · constructor
    · have h := h1.trans (Int.le_ceil x)
      exact_mod_cast h
    · exact Int.ceil_le.mpr (by exact_mod_cast h2)

/-! ## C3 — AudioResampler -/

/-- C3 (counterexample): the claim says the output length equals
`round(n × 1.5)`, but for a single input sample the code produces
`int(1 * 24000 / 16000) = 1` output sample while `round(1 × 1.5) = 2`. -/
theorem resample_16_to_24_round_counterexample :
    (resample_16_to_24 [5]).length = 1 ∧ round ((1 : ℚ) * (3 / 2)) = 2 := by
  constructor
  · decide
  · norm_num [round_eq]

/-- C3 (amended): for every input of `n` 16-bit samples the output length
is `⌊n × 1.5⌋` (not `round(n × 1.5)`); an empty input yields an empty
output; every output value lies within the 16-bit signed range; and output
sample `i` is the clipped, int16-truncated linear interpolation of the
input at position `i × (n_in − 1)/(n_out − 1)`. -/
theorem resample_16_to_24_spec (samples : List Int) :
    (resample_16_to_24 samples).length = 3 * samples.length / 2 ∧
    (samples = [] → resample_16_to_24 samples = []) ∧
    (∀ y ∈ resample_16_to_24 samples, -32768 ≤ y ∧ y ≤ 32767) ∧
    resample_16_to_24 samples =
      (List.range (3 * samples.length / 2)).map fun (i : Nat) =>
        ratTrunc (clip16 (interpAt samples
          ((i : ℚ) * ((samples.length : ℚ) - 1) /
            (((3 * samples.length / 2 : Nat) : ℚ) - 1))) ) := by
  have hmap : resample_16_to_24 samples =
      (List.range (3 * samples.length / 2)).map fun (i : Nat) =>
        ratTrunc (clip16 (interpAt samples
          ((i : ℚ) * ((samples.length : ℚ) - 1) /
            (((3 * samples.length / 2 : Nat) : ℚ) - 1))) ) := by
    simp only [resample_16_to_24, n_out_eq]
  refine ⟨?_, ?_, ?_, hmap⟩
  · rw [hmap, List.length_map, List.length_range]
  · intro h
    subst h
    rfl
  · intro y hy
    rw [hmap] at hy
    obtain ⟨i, _, rfl⟩ := List.mem_map.mp hy
    exact ratTrunc_bounds _ (le_clip16 _) (clip16_le _)

/-- C3 (witness): the amended theorem applied at concrete inputs: an empty
input yields an empty output and two input samples yield three output
samples. -/
theorem resample_16_to_24_spec_witness :
    resample_16_to_24 [] = [] ∧ (resample_16_to_24 [3, -7]).length = 3 :=
  ⟨(resample_16_to_24_spec []).2.1 rfl, (resample_16_to_24_spec [3, -7]).1⟩

/-! ## C1 — end-of-run trace -/

/-- C1 (counterexample): a pipeline run that ends with the device stop
sentinel emits no device-side event at all — in particular no `RUN_END` —
and sends no JSON to the server — in particular no `voice_end`/summary
message; the counters and stop reason are only logged. -/
theorem forward_audio_no_voice_end_counterexample :
    forward_audio 30 5 [QueueItem.stopSentinel] =
      ⟨[], [], [], 0, "device stopped"⟩ := by decide

/-- C1 (amended): when a pipeline run ends (device stop sentinel, hard
duration timeout, or cancellation), the forwarding task only logs the byte
count and the stop reason; it emits no device-side `RUN_END` event and
sends no `voice_end`/summary message to the server.  The device-side
`RUN_END` is emitted only when the server later sends `voice_done`. -/
theorem forward_audio_end_trace (maxDur budget : Nat) (q : List QueueItem)
    (processed : List (List Int)) (base : String) (msg : InMsg)
    (hmsg : msg.mtype = "voice_done") :
    (forward_audio maxDur budget q).deviceEvents = [] ∧
    (forward_audio maxDur budget q).serverJson = [] ∧
    (forward_audio maxDur budget q).logReason =
      stopReasonText maxDur (forwardLoop budget q).2.2 ∧
    (forward_audio maxDur budget q).logBytes = (forwardLoop budget q).2.1 ∧
    (forward_audio_cancelled maxDur processed).deviceEvents = [] ∧
    (forward_audio_cancelled maxDur processed).serverJson = [] ∧
    (handle_server_message base msg).deviceEvents = [⟨EventType.RUN_END, []⟩] := by
  refine ⟨rfl, rfl, rfl, rfl, rfl, rfl, ?_⟩
  simp only [handle_server_message, hmsg]
  rfl

/-- C1 (witness): the amended theorem applied to a concrete run ended by
the stop sentinel and a concrete `voice_done` server message. -/
theorem forward_audio_end_trace_witness :
    (forward_audio 30 5 [QueueItem.stopSentinel]).deviceEvents = [] ∧
    (forward_audio 30 5 [QueueItem.stopSentinel]).serverJson = [] ∧
    (handle_server_message "http://localhost:3111"
        { mtype := "voice_done" }).deviceEvents = [⟨EventType.RUN_END, []⟩] :=
  ⟨(forward_audio_end_trace 30 5 [.stopSentinel] [] "http://localhost:3111"
      { mtype := "voice_done" } rfl).1,
   (forward_audio_end_trace 30 5 [.stopSentinel] [] "http://localhost:3111"
      { mtype := "voice_done" } rfl).2.1,
   (forward_audio_end_trace 30 5 [.stopSentinel] [] "http://localhost:3111"
      { mtype := "voice_done" } rfl).2.2.2.2.2.2⟩

/-! ## C2 — pipeline start -/

/-- C2 (counterexample): with one forwarding task already running (a
pipeline is ACTIVE) and stale audio queued, a new pipeline start drains
the queue but creates a second forwarding task: afterwards two forwarding
tasks exist, contradicting the claim that no second task is started. -/
theorem pipeline_start_second_task_counterexample :
    (handle_pipeline_start "dev" "c1" none ⟨[some [1, 2]], 1⟩
        ⟨[("dev", none)], none⟩).session.forwardTasks = 2 ∧
    (handle_pipeline_start "dev" "c1" none ⟨[some [1, 2]], 1⟩
        ⟨[("dev", none)], none⟩).session.audioQueue = [] := by decide

/-- C2 (amended): a pipeline-start always drains/discards any audio still
queued from the prior run before the new run begins, but it
unconditionally creates a new audio-forwarding task — even while a prior
pipeline is still ACTIVE, so a second concurrent forwarding task can be
started.  It also sends `voice_start`, registers the device as active
streamer, emits `RUN_START`/`STT_START`/`STT_VAD_START`, and accepts the
pipeline with port 0. -/
theorem pipeline_start_trace (deviceId conversationId : String)
    (wakeWord : Option String) (s : SessionState) (m : ManagerState) :
    (handle_pipeline_start deviceId conversationId wakeWord s m).session.audioQueue = [] ∧
    (handle_pipeline_start deviceId conversationId wakeWord s m).session.forwardTasks =
      s.forwardTasks + 1 ∧
    (handle_pipeline_start deviceId conversationId wakeWord s m).manager =
      set_active_streamer m deviceId ∧
    (handle_pipeline_start deviceId conversationId wakeWord s m).serverJson =
      [.voice_start deviceId conversationId (wakeWord.getD "")] ∧
    (handle_pipeline_start deviceId conversationId wakeWord s m).deviceEvents =
      [⟨.RUN_START, []⟩, ⟨.STT_START, []⟩, ⟨.STT_VAD_START, []⟩] ∧
    (handle_pipeline_start deviceId conversationId wakeWord s m).returnPort = some 0 :=
  ⟨rfl, rfl, rfl, rfl, rfl, rfl⟩

/-! ## C5 — tts_start translation -/

/-- C5: every `tts_start` server message carrying an `audio_path` yields
exactly two device events, `TTS_START` then `TTS_END`, both carrying the
absolute URL formed by concatenating the configured base URL with the
`audio_path`. -/
theorem tts_start_two_events (base p : String) (msg : InMsg)
    (hm : msg.mtype = "tts_start") (hp : msg.audio_path = some p) :
    (handle_server_message base msg).deviceEvents =
      [⟨.TTS_START, [("url", base ++ p)]⟩, ⟨.TTS_END, [("url", base ++ p)]⟩] := by
  simp only [handle_server_message, hm, hp]
  rfl

/-- C5 (witness): the spec scenario — `tts_start` with
`audio_path = "/audio/abc.wav"` and base URL `http://host:3111` yields
`TTS_START` and `TTS_END`, both carrying
`http://host:3111/audio/abc.wav`. -/
theorem tts_start_two_events_witness :
    (handle_server_message "http://host:3111"
        { mtype := "tts_start", audio_path := some "/audio/abc.wav" }).deviceEvents =
      [⟨.TTS_START, [("url", "http://host:3111/audio/abc.wav")]⟩,
       ⟨.TTS_END, [("url", "http://host:3111/audio/abc.wav")]⟩] :=
  tts_start_two_events "http://host:3111" "/audio/abc.wav" _ rfl rfl

/-! ## C6 — binary vs JSON send paths -/

/-- C6: binary audio sends never attempt to establish the server link —
when the link is down the frame is dropped with no action at all (never
buffered) and no trace ever contains a connect attempt; JSON sends on a
down link first attempt a connect. -/
theorem binary_drop_json_connect :
    (∀ sendOk d, ws_send_binary false sendOk d = (false, [])) ∧
    (∀ c sendOk d, WsAction.connectAttempt ∉ (ws_send_binary c sendOk d).2) ∧
    (∀ connectOk sendOk reg m,
      ((ws_send_json false connectOk sendOk reg m).2).head? =
        some WsAction.connectAttempt) := by
  refine ⟨fun sendOk d => rfl, ?_, ?_⟩
  · intro c sendOk d
    cases c <;> cases sendOk <;> simp [ws_send_binary]
  · intro connectOk sendOk reg m
    cases connectOk <;> cases sendOk <;>
      simp [ws_send_json, ensure_ws]

/-! ## C8 — announcements -/

/-- C8: every announcement issues the device call with the fixed 300
second timeout and sends `announce_done` with the device id, the announce
id and the success flag in every case — the flag is the device result on
success and `false` when the device call failed or raised. -/
theorem play_announcement_always_reports (d a : String)
    (outcome : Except String Bool) :
    (play_announcement d a outcome).1 = 300 ∧
    (play_announcement d a outcome).2 =
      .announce_done d a (outcome.toOption.getD false) := by
  cases outcome <;> exact ⟨rfl, rfl⟩

/-! ## C4 — devices_list on (re)connect -/

/-- C4 (counterexample): a successful (re)connect with one device session
present in the registry (whose device info is not yet cached) sends no
`devices_list` message at all — only the connect happens — contradicting
"exactly one devices_list message containing an entry for every session
present". -/
theorem ensure_ws_devices_list_counterexample :
    ensure_ws false true [("kitchen", (none : Option DeviceInfo))] =
      (true, [WsAction.connectAttempt]) := by decide

/-- C4 (amended): on a successful (re)connect, exactly one `devices_list`
message is sent when at least one registry session has cached device
info, and it contains an entry exactly for every session whose
`{name, model, version}` info has been cached; sessions without cached
info are omitted, and when no session has cached info no `devices_list`
message is sent at all. -/
theorem ensure_ws_devices_list (reg : List (String × Option DeviceInfo)) :
    (devices_list_entries reg ≠ [] →
      ensure_ws false true reg =
        (true, [WsAction.connectAttempt,
                WsAction.jsonSent (ServerMsg.devices_list (devices_list_entries reg))])) ∧
    (devices_list_entries reg = [] →
      ensure_ws false true reg = (true, [WsAction.connectAttempt])) ∧
    (∀ id info, (id, info) ∈ devices_list_entries reg ↔ (id, some info) ∈ reg) := by
  refine ⟨?_, ?_, ?_⟩
  · intro h
    simp [ensure_ws, send_devices_list, List.isEmpty_iff, h]
  · intro h
    simp [ensure_ws, send_devices_list, List.isEmpty_iff, h]
  · intro id info
    simp only [devices_list_entries, List.mem_filterMap, Option.map_eq_some']
    constructor
    · rintro ⟨⟨pid, pinfo⟩, hmem, j, hj, hpair⟩
      injection hpair with h1 h2
      subst h1
      subst h2
      subst hj
      exact hmem
    · intro hmem
      exact ⟨(id, some info), hmem, info, rfl, rfl⟩

/-- C4 (witness): the amended theorem applied to a one-session registry
with cached info: exactly one `devices_list` message is sent and it
contains that session's entry. -/
theorem ensure_ws_devices_list_witness :
    devices_list_entries [("a", some ⟨"A", "m", "v"⟩)] ≠ [] ∧
    ensure_ws false true [("a", some ⟨"A", "m", "v"⟩)] =
      (true, [WsAction.connectAttempt,
              WsAction.jsonSent (ServerMsg.devices_list [("a", ⟨"A", "m", "v"⟩)])]) :=
  ⟨by decide, (ensure_ws_devices_list [("a", some ⟨"A", "m", "v"⟩)]).1 (by decide)⟩

/-! ## C7 — router: unknown device and broadcast -/

/-- C7: a server message whose `device_id` names no registered session is
dropped without raising and without touching the registry state; an
`announce_all` message is delivered to every currently-registered session
exactly once (as an `announce` message addressed to that session), again
without touching the registry state. -/
theorem route_message_unknown_and_broadcast (base : String) (m : ManagerState)
    (msg : InMsg) :
    (∀ d, msg.device_id = some d → d ∉ registryIds m → msg.mtype ≠ "announce_all" →
      route_message base m msg = .ok (m, [])) ∧
    (msg.device_id = none → msg.mtype ≠ "announce_all" →
      route_message base m msg = .ok (m, [])) ∧
    (msg.mtype = "announce_all" →
      route_message base m msg =
        .ok (m, m.devices.map fun p =>
          (p.1, { msg with mtype := "announce", device_id := some p.1 })) ∧
      (m.devices.map fun p =>
        (p.1, { msg with mtype := "announce", device_id := some p.1 })).map Prod.fst =
        registryIds m ∧
      ((registryIds m).Nodup → ∀ d ∈ registryIds m,
        ((m.devices.map fun p =>
          (p.1, { msg with mtype := "announce", device_id := some p.1 })).map
            Prod.fst).count d = 1)) := by
  refine ⟨?_, ?_, ?_⟩
  · intro d hd hnot hna
    simp [route_message, hna, hd, hnot]
  · intro hd hna
    simp [route_message, hna, hd]
  · intro ha
    have hfst : (m.devices.map fun p =>
        (p.1, { msg with mtype := "announce", device_id := some p.1 })).map Prod.fst =
        registryIds m := by
      rw [List.map_map]
      rfl
    refine ⟨by simp [route_message, ha], hfst, ?_⟩
    intro hnodup d hd
    rw [hfst]
    exact List.count_eq_one_of_mem hnodup hd

/-- C7 (witness): the theorem applied to a two-session registry, once for
a message naming an unregistered device id (dropped, state unchanged) and
once for an `announce_all` broadcast (delivered to both sessions). -/
theorem route_message_unknown_and_broadcast_witness :
    route_message "http://h" ⟨[("a", none), ("b", none)], none⟩
      { mtype := "voice_done", device_id := some "zz" } =
      .ok (⟨[("a", none), ("b", none)], none⟩, []) ∧
    route_message "http://h" ⟨[("a", none), ("b", none)], none⟩
      { mtype := "announce_all", audio_path := some "/x.wav",
        announce_id := some "id1" } =
      .ok (⟨[("a", none), ("b", none)], none⟩,
        [("a", { mtype := "announce", device_id := some "a",
                 audio_path := some "/x.wav", announce_id := some "id1" }),
         ("b", { mtype := "announce", device_id := some "b",
                 audio_path := some "/x.wav", announce_id := some "id1" })]) :=
  ⟨(route_message_unknown_and_broadcast "http://h" ⟨[("a", none), ("b", none)], none⟩
      { mtype := "voice_done", device_id := some "zz" }).1 "zz" rfl (by decide)
      (by decide),
   ((route_message_unknown_and_broadcast "http://h" ⟨[("a", none), ("b", none)], none⟩
      { mtype := "announce_all", audio_path := some "/x.wav",
        announce_id := some "id1" }).2.2 rfl).1⟩

/-! ## C10 — active-streamer frame effect -/

/-- C10: `clear_active_streamer` changes the marker only when it currently
equals the given device id, and neither it nor `set_active_streamer`
touches the device registry; consequently a `voice_done` message routed to
one registered device leaves another device's active-streamer registration
(and all registry state) unchanged. -/
theorem clear_active_streamer_frame (m : ManagerState) (id : String) :
    (set_active_streamer m id).devices = m.devices ∧
    (clear_active_streamer m id).devices = m.devices ∧
    (m.activeStreamer ≠ some id → clear_active_streamer m id = m) ∧
    (m.activeStreamer = some id →
      clear_active_streamer m id = { m with activeStreamer := none }) ∧
    (∀ base other, id ∈ registryIds m → m.activeStreamer = some other →
      other ≠ id →
      route_message base m { mtype := "voice_done", device_id := some id } =
        .ok (m, [(id, { mtype := "voice_done", device_id := some id })])) := by
  refine ⟨rfl, ?_, ?_, ?_, ?_⟩
  · unfold clear_active_streamer
    split <;> rfl
  · intro h
    exact if_neg h
  · intro h
    exact if_pos h
  · intro base other hmem hact hne
    have hclear : clear_active_streamer m id = m := by
      unfold clear_active_streamer
      rw [if_neg]
      rw [hact]
      simp [hne]
    simp [route_message, hmem, handle_server_message, hclear]

/-- C10 (witness): the theorem applied to a registry whose active streamer
is device `b`: a `voice_done` routed to device `a` leaves `b`'s
registration and all registry state unchanged, and `clear_active_streamer`
for `a` is the identity. -/
theorem clear_active_streamer_frame_witness :
    clear_active_streamer ⟨[("a", none), ("b", none)], some "b"⟩ "a" =
      ⟨[("a", none), ("b", none)], some "b"⟩ ∧
    route_message "u" ⟨[("a", none), ("b", none)], some "b"⟩
      { mtype := "voice_done", device_id := some "a" } =
      .ok (⟨[("a", none), ("b", none)], some "b"⟩,
        [("a", { mtype := "voice_done", device_id := some "a" })]) :=
  ⟨(clear_active_streamer_frame ⟨[("a", none), ("b", none)], some "b"⟩ "a").2.2.1
      (by decide),
   (clear_active_streamer_frame ⟨[("a", none), ("b", none)], some "b"⟩ "a").2.2.2.2
      "u" "b" (by decide) rfl (by decide)⟩

/-! ## C9 — segmenter timeout on all-zero frames -/

theorem segStep_zero_waiting (P : SegParams) (hbt : 0 ≤ P.beforeThreshold)
    (s : SegState) (hph : s.phase = .waiting) :
    segStep P s 0 =
      if s.timeoutLeft - 1 = 0 then
        ({ s with timeoutLeft := 0, timedOut := true }, false)
      else if s.resetLeft - 1 = 0 then
        ({ s with speechLeft := P.speechFrames, resetLeft := P.resetFrames,
                  timeoutLeft := s.timeoutLeft - 1 }, true)
      else
        ({ s with resetLeft := s.resetLeft - 1,
                  timeoutLeft := s.timeoutLeft - 1 }, true) := by
  have hlt : ¬ (P.beforeThreshold < 0) := not_lt.mpr hbt
  simp only [segStep, hph, if_neg hlt]

theorem segStep_zero_waiting_phase (P : SegParams) (hbt : 0 ≤ P.beforeThreshold)
    (s : SegState) (hph : s.phase = .waiting) :
    (segStep P s 0).1.phase = .waiting := by
  rw [segStep_zero_waiting P hbt s hph]
  split
  · exact hph
  · split <;> exact hph

theorem segRun_zero_of_waiting (P : SegParams) (hbt : 0 ≤ P.beforeThreshold) :
    ∀ T n (s : SegState), s.phase = .waiting → s.timeoutLeft = T →
      1 ≤ T → T ≤ n → segRun P s (List.replicate n (0 : ℚ)) = some true := by
  intro T
  induction T with
  | zero =>
    intro n s _ _ h1 _
    omega
  | succ T ih =>
    intro n s hph hto h1 hn
    obtain ⟨m, rfl⟩ : ∃ m, n = m + 1 := ⟨n - 1, by omega⟩
    rw [List.replicate_succ, segRun, segStep_zero_waiting P hbt s hph, hto]
    by_cases hT : T = 0
    · subst hT
      simp
    · have ht1 : ¬ (T + 1 - 1 = 0) := by omega
      rw [if_neg ht1]
      by_cases hr : s.resetLeft - 1 = 0
      · rw [if_pos hr]
        simp only [if_true]
        exact ih m _ hph (by simp) (by omega) (by omega)
      · rw [if_neg hr]
        simp only [if_true]
        exact ih m _ hph (by simp) (by omega) (by omega)

theorem segIterZero_waiting (P : SegParams) (hbt : 0 ≤ P.beforeThreshold)
    (s : SegState) (hph : s.phase = .waiting) :
    ∀ k, (segIterZero P s k).phase = .waiting := by
  intro k
  induction k with
  | zero => exact hph
  | succ k ih => exact segStep_zero_waiting_phase P hbt _ ih

/-- C9: from a freshly reset segmenter, a sequence of all-zero
speech-probability frames lasting at least `timeoutFrames` frames makes
`process` return false exactly once — the run stops there — with the
`timed_out` flag set, while the `IN_COMMAND` state is never entered at any
step of the trajectory. -/
theorem segmenter_all_zero_timeout (P : SegParams)
    (hto : 1 ≤ P.timeoutFrames) (hbt : 0 ≤ P.beforeThreshold)
    (n : Nat) (hn : P.timeoutFrames ≤ n) :
    segRun P (segInit P) (List.replicate n (0 : ℚ)) = some true ∧
    ∀ k, (segIterZero P (segInit P) k).phase = SegPhase.waiting :=
  ⟨segRun_zero_of_waiting P hbt P.timeoutFrames n (segInit P) rfl rfl hto hn,
   segIterZero_waiting P hbt (segInit P) rfl⟩

/-- C9 (witness): the theorem applied at concrete parameters
(`timeoutFrames = 3`, thresholds 0) and a 4-frame all-zero sequence. -/
theorem segmenter_all_zero_timeout_witness :
    segRun ⟨2, 2, 5, 3, 2, 0, 0⟩ (segInit ⟨2, 2, 5, 3, 2, 0, 0⟩)
      (List.replicate 4 (0 : ℚ)) = some true ∧
    (segIterZero ⟨2, 2, 5, 3, 2, 0, 0⟩ (segInit ⟨2, 2, 5, 3, 2, 0, 0⟩) 2).phase =
      SegPhase.waiting :=
  ⟨(segmenter_all_zero_timeout ⟨2, 2, 5, 3, 2, 0, 0⟩ (by decide) (le_refl 0) 4
      (by decide)).1,
   (segmenter_all_zero_timeout ⟨2, 2, 5, 3, 2, 0, 0⟩ (by decide) (le_refl 0) 4
      (by decide)).2 2⟩

end VoiceBridge
